import Mathlib

/-!
Verification of the miio network core: a shallow embedding of the
transient-error classifier (`lib/transientNetworkErrors.js`), the
connect-level retry loop (`lib/connectToDevice.js`), the network manager's
discovery broadcast (`lib/network.js` `Network.search`), the per-device call
engine (`lib/network.js` `DeviceInfo.call` / `onMessage`), and the discovery
registry (`lib/discovery-base.js`).

Strings are modelled as lists of Unicode code points (`List Nat`); the
JavaScript `toUpperCase` / `toLowerCase` case maps are modelled by their
ASCII restriction, which coincides with JavaScript on every error code and
message involved here.
-/

/-- Strings as lists of code points. -/
abbrev Str := List Nat

/-- Convert a Lean string literal to its code-point list. -/
def str (s : String) : Str := s.data.map Char.toNat

/-- ASCII restriction of the JavaScript per-character upper-case map. -/
def asciiUpperChar (n : Nat) : Nat :=
  if 97 ≤ n ∧ n ≤ 122 then n - 32 else n

/-- ASCII restriction of the JavaScript per-character lower-case map. -/
def asciiLowerChar (n : Nat) : Nat :=
  if 65 ≤ n ∧ n ≤ 90 then n + 32 else n

/-- `s.toUpperCase()` on code points. -/
def upperStr (s : Str) : Str := s.map asciiUpperChar

/-- `s.toLowerCase()` on code points. -/
def lowerStr (s : Str) : Str := s.map asciiLowerChar

/-- Does `l` start with `p`? (helper for the substring test). -/
def listStartsWith : Str → Str → Bool
  | [], _ => true
  | _ :: _, [] => false
  | p :: ps, x :: xs => p == x && listStartsWith ps xs

/-- JavaScript `haystack.includes(needle)`: substring containment. -/
def listContainsSub (needle : Str) : Str → Bool
  | [] => listStartsWith needle []
  | x :: xs => listStartsWith needle (x :: xs) || listContainsSub needle xs

/-- A JavaScript primitive value carried on an error's `code` / `errno`
field: either a string or a number. -/
inductive JsVal where
  | strv (s : Str)
  | num (n : Int)
deriving DecidableEq

/-- A JavaScript error as the classifier sees it: optional `code`,
optional `errno`, optional string `message`, optional nested `cause`. -/
inductive JsError where
  | mk (code : Option JsVal) (errno : Option JsVal) (message : Option Str)
      (cause : Option JsError)

def JsError.code : JsError → Option JsVal
  | .mk c _ _ _ => c

def JsError.errno : JsError → Option JsVal
  | .mk _ e _ _ => e

def JsError.message : JsError → Option Str
  | .mk _ _ m _ => m

def JsError.cause : JsError → Option JsError
  | .mk _ _ _ c => c

/-- `TRANSIENT_NETWORK_ERROR_CODES` from `lib/transientNetworkErrors.js`
(the same 30-element set appears in both revisions of the module). -/
def TRANSIENT_NETWORK_ERROR_CODES : List Str :=
  [str "timeout", str "ENOTCONN", str "EHOSTUNREACH", str "EHOSTDOWN",
   str "ENETUNREACH", str "ENETDOWN", str "ENETRESET", str "EAGAIN",
   str "EINTR", str "EALREADY", str "EINPROGRESS", str "EWOULDBLOCK",
   str "ENOBUFS", str "EADDRNOTAVAIL", str "ECONNREFUSED", str "ECONNRESET",
   str "ECONNABORTED", str "EPIPE", str "EBADF", str "EIO", str "ECANCELED",
   str "ETIMEDOUT", str "EAI_AGAIN", str "EAI_FAIL", str "EAI_SYSTEM",
   str "EAI_NONAME", str "EAI_NODATA", str "ENOTFOUND",
   str "ERR_SOCKET_DGRAM_NOT_RUNNING", str "ERR_SOCKET_CLOSED"]

/-- `canonicalizeErrorCode(code)` from `lib/transientNetworkErrors.js`:
keep a known code, else try its upper-case form, else its lower-case form,
else store the upper-case form. -/
def canonicalizeErrorCode (code : Str) : Str :=
  if code ∈ TRANSIENT_NETWORK_ERROR_CODES then code
  else if upperStr code ∈ TRANSIENT_NETWORK_ERROR_CODES then upperStr code
  else if lowerStr code ∈ TRANSIENT_NETWORK_ERROR_CODES then lowerStr code
  else upperStr code

/-- `normalizeNetworkError(error)` from `lib/transientNetworkErrors.js`.
`g` models `util.getSystemErrorName`: `g n = none` when the call throws.
Mutation of the error (and of its cause) is modelled by returning the
updated value. -/
def normalizeNetworkError (g : Int → Option Str) : JsError → JsError
  | .mk code errno msg cause =>
    match code with
    | some (.strv c) =>
      .mk (some (.strv (canonicalizeErrorCode c))) errno msg cause
    | _ =>
      match errno with
      | some (.strv s) =>
        .mk (some (.strv (canonicalizeErrorCode s))) errno msg cause
      | some (.num n) =>
        match g n with
        | some name => .mk (some (.strv name)) errno msg cause
        | none =>
          match cause with
          | some ec =>
            let nc := normalizeNetworkError g ec
            match nc.code with
            | some (.strv s) => .mk (some (.strv s)) errno msg (some nc)
            | _ => .mk code errno msg (some nc)
          | none => .mk code errno msg none
      | _ =>
        match cause with
        | some ec =>
          let nc := normalizeNetworkError g ec
          match nc.code with
          | some (.strv s) => .mk (some (.strv s)) errno msg (some nc)
          | _ => .mk code errno msg (some nc)
        | none => .mk code errno msg none

/-- `'Network communication is unavailable'`, the outage message sentinel. -/
def NETWORK_UNAVAILABLE_MESSAGE : Str := str "Network communication is unavailable"

/-- The membership-and-message check shared by both revisions of
`isTransientNetworkError`: code in the transient set, else a case-sensitive
substring test on the outer `message`. -/
def transientCheck (e : JsError) : Bool :=
  match e.code with
  | some (.strv c) =>
    if c ∈ TRANSIENT_NETWORK_ERROR_CODES then true
    else
      match e.message with
      | some m => listContainsSub NETWORK_UNAVAILABLE_MESSAGE m
      | none => false
  | _ =>
    match e.message with
    | some m => listContainsSub NETWORK_UNAVAILABLE_MESSAGE m
    | none => false

/-- `isTransientNetworkError(error)` from `lib/transientNetworkErrors.js`
(the revision with normalization): normalize, then check the code set, then
the message text. -/
def isTransientNetworkError (g : Int → Option Str) (e : JsError) : Bool :=
  transientCheck (normalizeNetworkError g e)

/-- `isTransientNetworkError(error)` from the plain revision of
`lib/transientNetworkErrors.js` (no normalization step); this is the
function `lib/connectToDevice.js` imports. -/
def isTransientNetworkErrorPlain (e : JsError) : Bool :=
  transientCheck e

/-- String rendering JavaScript applies when concatenating an error code
into a reason string (`'...' + err.code`). -/
def jsValConcat : Option JsVal → Str
  | some (.strv s) => s
  | some (.num n) => str (toString n)
  | none => str "undefined"

/-- Truthiness-respecting read of a `code` field (`error.code || ...`):
an empty string and the number 0 are falsy. -/
def jsValTruthyStr : Option JsVal → Option Str
  | some (.strv s) => if s = [] then none else some s
  | some (.num n) => if n = 0 then none else some (str (toString n))
  | none => none

/-- `isTransientConnectionError(error)` from `lib/connectToDevice.js`:
the code `connection-failure` is transient, otherwise defer to the
imported `isTransientNetworkError`. -/
def isTransientConnectionError (e : JsError) : Bool :=
  if e.code = some (.strv (str "connection-failure")) then true
  else isTransientNetworkErrorPlain e

/-- A recorded invocation of a network-manager method, as the repository's
tests observe it by stubbing `network.resetSocket` and
`network.requestRecoveryDiscovery`. -/
inductive NetEvent where
  | call (name reason : Str)
deriving DecidableEq

/-- `error && (error.code || error.message) || 'unknown'` from
`recoverFromTransientConnectionError`. -/
def connectRetryReasonTail (e : JsError) : Str :=
  match jsValTruthyStr e.code with
  | some s => s
  | none =>
    match e.message with
    | some m => if m = [] then str "unknown" else m
    | none => str "unknown"

/-- `recoverFromTransientConnectionError(error)` from
`lib/connectToDevice.js`: invoke `network.resetSocket` and then
`network.requestRecoveryDiscovery`, both with the same reason.
`requestRecoveryDiscovery` itself is not part of the sources; its
invocation is modelled as an observable event exactly as the repository's
tests record it. -/
def recoverFromTransientConnectionError (e : JsError) : List NetEvent :=
  let reason := str "connect retry after transient error: " ++ connectRetryReasonTail e
  [.call (str "resetSocket") reason, .call (str "requestRecoveryDiscovery") reason]

/-- Outcome of one scripted `network.findDeviceViaAddress` attempt. -/
inductive ConnectOutcome where
  | ok
  | fail (e : JsError)

/-- The `findDeviceWithRetry` loop of `lib/connectToDevice.js`, driven by a
script of attempt outcomes. Returns the number of attempts made, the
recorded recovery events, and the error finally thrown (`none` on
success). An exhausted script stands for a resolving attempt. -/
def findDeviceWithRetry : List ConnectOutcome → Int → Nat × List NetEvent × Option JsError
  | [], _ => (0, [], none)
  | .ok :: _, _ => (1, [], none)
  | .fail e :: rest, attemptsLeft =>
    if ¬ isTransientConnectionError e ∨ attemptsLeft ≤ 0 then
      (1, [], some e)
    else
      let ev := recoverFromTransientConnectionError e
      let r := findDeviceWithRetry rest (attemptsLeft - 1)
      (r.1 + 1, ev ++ r.2.1, r.2.2)

/-- `TRANSIENT_NETWORK_ERRORS`, the set local to `lib/network.js` (20
codes; it lacks `timeout`, `EINTR`, `EALREADY`, `EINPROGRESS`,
`ECONNABORTED`, `EBADF`, `EIO`, `ECANCELED`, `EAI_SYSTEM` and
`ERR_SOCKET_CLOSED`). -/
def TRANSIENT_NETWORK_ERRORS : List Str :=
  [str "EHOSTUNREACH", str "EHOSTDOWN", str "ENETUNREACH", str "ENETDOWN",
   str "ENETRESET", str "EAGAIN", str "EWOULDBLOCK", str "ENOBUFS",
   str "ENOTCONN", str "EADDRNOTAVAIL", str "ECONNREFUSED",
   str "ECONNRESET", str "EPIPE", str "ETIMEDOUT", str "EAI_AGAIN",
   str "EAI_FAIL", str "EAI_NONAME", str "EAI_NODATA", str "ENOTFOUND",
   str "ERR_SOCKET_DGRAM_NOT_RUNNING"]

/-- `TRANSIENT_NETWORK_ERRORS.has(err.code)` as used in `lib/network.js`
(no canonicalization: the raw `code` value is looked up). -/
def codeInNetworkSet (e : JsError) : Bool :=
  match e.code with
  | some (.strv c) => if c ∈ TRANSIENT_NETWORK_ERRORS then true else false
  | _ => false

/-- Observable steps of one `sendBroadcast` pass inside `Network.search`. -/
inductive SearchEffect where
  | debugSkip
  | debugFail
  | resetSocketCall (reason : Str)
deriving DecidableEq

/-- The `sendBroadcast` closure of `Network.search` in `lib/network.js`.
`socketAccess` models reading `this.socket` (which may throw);
`cbErr` models the error handed to the `socket.send` callback.
A `.error` result models the exception propagating out of `search()`. -/
def sendBroadcast (socketAccess : Except JsError Unit) (cbErr : Option JsError) :
    Except JsError (List SearchEffect) :=
  match socketAccess with
  | .error err =>
    if codeInNetworkSet err then .ok [.debugSkip] else .error err
  | .ok _ =>
    match cbErr with
    | none => .ok []
    | some err =>
      if codeInNetworkSet err then
        .ok [.resetSocketCall (str "discovery broadcast error: " ++ jsValConcat err.code)]
      else
        .ok [.debugFail]

/-- The effect list of a `sendBroadcast` pass that did not throw. -/
def broadcastEffects (socketAccess : Except JsError Unit) (cbErr : Option JsError) :
    List SearchEffect :=
  match sendBroadcast socketAccess cbErr with
  | .ok l => l
  | .error _ => []

/-- Whether the `sendBroadcast` pass threw (and hence `search()` threw,
since `search` invokes it synchronously). -/
def sendBroadcastThrows (socketAccess : Except JsError Unit) (cbErr : Option JsError) : Bool :=
  match sendBroadcast socketAccess cbErr with
  | .ok _ => false
  | .error _ => true

/-- A discovery service record: an object carrying an `id` (the raw-value
fallback of the id extraction is not exercised by any claim). -/
structure ServiceVal where
  id : Str
deriving DecidableEq

/-- Events a discovery registry emits. -/
inductive DiscEvent where
  | available (s : ServiceVal)
  | update (s : ServiceVal)
  | unavailable (s : ServiceVal)
deriving DecidableEq

/-- JavaScript `Map.set`: update in place, else append. -/
def mapSet {α : Type} : List (Str × α) → Str → α → List (Str × α)
  | [], k, v => [(k, v)]
  | (k', v') :: rest, k, v =>
    if k' = k then (k, v) :: rest else (k', v') :: mapSet rest k v

/-- JavaScript `Map.delete`. -/
def mapDelete {α : Type} : List (Str × α) → Str → List (Str × α)
  | [], _ => []
  | (k', v') :: rest, k =>
    if k' = k then rest else (k', v') :: mapDelete rest k

/-- JavaScript `Map.get`. -/
def mapGet {α : Type} : List (Str × α) → Str → Option α
  | [], _ => none
  | (k', v') :: rest, k => if k' = k then some v' else mapGet rest k

/-- JavaScript `Map.has`. -/
def mapHasKey {α : Type} (m : List (Str × α)) (k : Str) : Bool :=
  (mapGet m k).isSome

/-- State of a `TimedDiscovery` from `lib/discovery-base.js`: the
`_services` map and the `_timestamps` map. -/
structure TimedDiscoveryState where
  services : List (Str × ServiceVal)
  timestamps : List (Str × Nat)
deriving DecidableEq

/-- The empty registry, as built by the constructors. -/
def emptyTimedDiscovery : TimedDiscoveryState := ⟨[], []⟩

/-- `TimedDiscovery[addService]`: record the sighting time, then insert and
emit `available` on first sighting or `update` afterwards. -/
def timedAddService (st : TimedDiscoveryState) (svc : ServiceVal) (now : Nat) :
    TimedDiscoveryState × List DiscEvent :=
  let ts := mapSet st.timestamps svc.id now
  if mapHasKey st.services svc.id then
    (⟨mapSet st.services svc.id svc, ts⟩, [.update svc])
  else
    (⟨mapSet st.services svc.id svc, ts⟩, [.available svc])

/-- `BasicDiscovery[removeService]`, which `TimedDiscovery` inherits
unchanged: delete the service and emit `unavailable` when present. It
touches only `_services`. -/
def removeService (st : TimedDiscoveryState) (svc : ServiceVal) :
    TimedDiscoveryState × List DiscEvent :=
  match mapGet st.services svc.id with
  | some existing => (⟨mapDelete st.services svc.id, st.timestamps⟩, [.unavailable existing])
  | none => (st, [])

/-- `TimedDiscovery._removeStale`: evict services whose last-seen age
exceeds `maxStaleTime`, clearing both maps for evicted entries. -/
def removeStale (st : TimedDiscoveryState) (now maxStaleTime : Nat) :
    TimedDiscoveryState × List DiscEvent :=
  st.timestamps.foldl
    (fun acc kv =>
      if now - kv.2 > maxStaleTime then
        match mapGet acc.1.services kv.1 with
        | some svc =>
          (⟨mapDelete acc.1.services kv.1, mapDelete acc.1.timestamps kv.1⟩,
           acc.2 ++ [.unavailable svc])
        | none => acc
      else acc)
    (st, [])

/-- `RETRYABLE_DEVICE_ERROR_CODES` from `lib/network.js`. -/
def RETRYABLE_DEVICE_ERROR_CODES : List Str := [str "-9999", str "-30001"]

/-- `RETRYABLE_DEVICE_ERROR_MESSAGES` from `lib/network.js`. -/
def RETRYABLE_DEVICE_ERROR_MESSAGES : List Str := [str "invalid stamp", str "invalid_stmp"]

/-- A structured error in a device reply (`object.error`). -/
structure DeviceError where
  code : Option JsVal
  message : Option Str

/-- JavaScript `String(v)` on an optional `code` value. -/
def jsStringOf : Option JsVal → Str
  | some (.strv s) => s
  | some (.num n) => str (toString n)
  | none => str "undefined"

/-- `DeviceInfo._isRetryableDeviceError(err)` from `lib/network.js`. -/
def isRetryableDeviceError : Option DeviceError → Bool
  | none => false
  | some err =>
    if jsStringOf err.code ∈ RETRYABLE_DEVICE_ERROR_CODES then true
    else
      match err.message with
      | none => false
      | some m =>
        RETRYABLE_DEVICE_ERROR_MESSAGES.any fun part => listContainsSub part (lowerStr m)

/-- What a call's promise was settled with. -/
inductive SettledWith where
  | deviceError (e : Option DeviceError)
  | jsError (e : JsError)
  | timeoutExhausted
  | result

/-- Observable steps of the per-call state machine in
`DeviceInfo.call` (`lib/network.js`). `netCall` records an invocation of a
method on `this.parent` (the network manager), exactly as the repository's
tests observe it. -/
inductive CallEffect where
  | netCall (name reason : Str)
  | markHandshakeRequired
  | promiseDelete (id : Nat)
  | promiseSet (id : Nat)
  | scheduleSend
  | startResponseTimer
  | clearResponseTimer
  | settle (s : SettledWith)

/-- Per-call engine state: `this.lastId`, `request.id`, the ids this call
holds in `this.promises`, the remaining retry budget, the retry attempt
counter, the `resolved` flag and whether a response timer is pending. -/
structure CallState where
  lastId : Nat
  requestId : Option Nat
  pending : List Nat
  retriesLeft : Int
  retryAttempt : Nat
  resolved : Bool
  responseTimerActive : Bool

/-- `let retriesLeft = (options && options.retries) || 5;` — a falsy
`retries` (absent or 0) selects the default 5. -/
def initialRetries : Option (Option Int) → Int
  | none => 5
  | some none => 5
  | some (some v) => if v = 0 then 5 else v

/-- Initial per-call state for a `DeviceInfo` whose `lastId` is `lastId0`,
with `options.retries` as given (`none` = no options object). -/
def mkCallState (lastId0 : Nat) (retriesOpt : Option (Option Int)) : CallState :=
  ⟨lastId0, none, [], initialRetries retriesOpt, 0, false, false⟩

/-- Request-id assignment in `send` (`lib/network.js`): first attempt uses
`lastId + 1`, a retry of a failed attempt uses `lastId + 100`; at 10000 or
more the id wraps to 1. -/
def assignRequestId (lastId : Nat) (isRetry : Bool) : Nat :=
  let id := if isRetry then lastId + 100 else lastId + 1
  if id ≥ 10000 then 1 else id

/-- The `retry(reason)` closure: clear the response timer, drop the failed
promise, mark the handshake as required, then either schedule another
`send` (consuming budget) or settle with the timeout error. -/
def retryStep (st : CallState) : CallState × List CallEffect :=
  if st.resolved then (st, [])
  else
    let (st1, ef1) :=
      if st.responseTimerActive then
        ({ st with responseTimerActive := false }, [CallEffect.clearResponseTimer])
      else (st, [])
    let (st2, ef2) :=
      match st1.requestId with
      | some id => ({ st1 with pending := st1.pending.erase id }, [CallEffect.promiseDelete id])
      | none => (st1, [])
    if st2.retriesLeft > 0 then
      ({ st2 with retriesLeft := st2.retriesLeft - 1, retryAttempt := st2.retryAttempt + 1 },
       ef1 ++ ef2 ++ [CallEffect.markHandshakeRequired, CallEffect.scheduleSend])
    else
      ({ st2 with retriesLeft := st2.retriesLeft - 1, resolved := true },
       ef1 ++ ef2 ++ [CallEffect.markHandshakeRequired, CallEffect.settle .timeoutExhausted])

/-- The `promise.reject` handler: mark resolved, clear the timer, drop the
promise and settle. -/
def rejectStep (st : CallState) (s : SettledWith) : CallState × List CallEffect :=
  let (st1, ef1) :=
    if st.responseTimerActive then
      ({ st with responseTimerActive := false }, [CallEffect.clearResponseTimer])
    else (st, [])
  let (st2, ef2) :=
    match st1.requestId with
    | some id => ({ st1 with pending := st1.pending.erase id }, [CallEffect.promiseDelete id])
    | none => (st1, [])
  ({ st2 with resolved := true }, ef1 ++ ef2 ++ [CallEffect.settle s])

/-- The `promise.resolve` handler. -/
def resolveStep (st : CallState) : CallState × List CallEffect :=
  rejectStep st .result

/-- The `normalizeNetworkError` closure local to `DeviceInfo.call`: when
the error has no (truthy) code but its message mentions the outage
sentinel, set `code = 'ENOTCONN'`. -/
def normalizeNetworkErrorLocal (e : JsError) : JsError :=
  match jsValTruthyStr e.code with
  | some _ => e
  | none =>
    match e.message with
    | some m =>
      if listContainsSub NETWORK_UNAVAILABLE_MESSAGE m then
        .mk (some (.strv (str "ENOTCONN"))) e.errno e.message e.cause
      else e
    | none => e

/-- The `isRetryableNetworkError` closure local to `DeviceInfo.call`:
normalize, then look the code up in the set local to `lib/network.js`. -/
def isRetryableNetworkError (e : JsError) : Bool :=
  codeInNetworkSet (normalizeNetworkErrorLocal e)

/-- Outcome of awaiting `this.handshake()` in one `send` pass. -/
inductive HandshakeOutcome where
  | ok
  | err (e : JsError)

/-- Outcome of `this.parent.socket.send(...)` in one `send` pass:
delivered, error reported to the callback, or synchronous throw. -/
inductive SendOutcome where
  | delivered
  | cbErr (e : JsError)
  | thrown (e : JsError)

/-- One pass of the `send` closure of `DeviceInfo.call`, with the
handshake and socket outcomes supplied by the environment. On a transient
handshake or send failure the code invokes `recoverFromNetworkError`,
which calls only `this.parent.resetSocket(reason)`. -/
def sendAttempt (st : CallState) (hs : HandshakeOutcome) (so : SendOutcome) :
    CallState × List CallEffect :=
  if st.resolved then (st, [])
  else
    match hs with
    | .err e =>
      let e1 := normalizeNetworkErrorLocal e
      if e1.code = some (.strv (str "timeout")) then
        retryStep st
      else if isRetryableNetworkError e1 then
        let reason := str "handshake network error: " ++ jsValConcat e1.code
        let r := retryStep st
        (r.1, CallEffect.netCall (str "resetSocket") reason :: r.2)
      else
        rejectStep st (.jsError e1)
    | .ok =>
      let (stDel, efDel, isRetry) :=
        match st.requestId with
        | some rid =>
          ({ st with pending := st.pending.erase rid }, [CallEffect.promiseDelete rid], true)
        | none => (st, [], false)
      let id := assignRequestId st.lastId isRetry
      let st1 := { stDel with
                   lastId := id
                   requestId := some id
                   pending := stDel.pending ++ [id] }
      let ef1 := efDel ++ [CallEffect.promiseSet id]
      match so with
      | .thrown e =>
        let e1 := normalizeNetworkErrorLocal e
        if codeInNetworkSet e1 then
          let reason := str "socket send throw: " ++ jsValConcat e1.code
          let r := retryStep st1
          (r.1, ef1 ++ [CallEffect.netCall (str "resetSocket") reason] ++ r.2)
        else
          let r := rejectStep st1 (.jsError e1)
          (r.1, ef1 ++ r.2)
      | .cbErr e =>
        let st2 := { st1 with responseTimerActive := true }
        let ef2 := ef1 ++ [CallEffect.startResponseTimer]
        let e1 := normalizeNetworkErrorLocal e
        if codeInNetworkSet e1 then
          let reason := str "socket send error: " ++ jsValConcat e1.code
          let r := retryStep st2
          (r.1, ef2 ++ [CallEffect.netCall (str "resetSocket") reason] ++ r.2)
        else
          let r := rejectStep st2 (.jsError e1)
          (r.1, ef2 ++ r.2)
      | .delivered =>
        ({ st1 with responseTimerActive := true }, ef1 ++ [CallEffect.startResponseTimer])

/-- The JSON-reply branch of `DeviceInfo.onMessage` for a decoded object
`{id, result?, error?}`: an unknown id is dropped; a result resolves; a
retryable device error restarts the call (`p.retry`); any other error
rejects. -/
def dispatchReply (st : CallState) (objId : Nat) (hasResult : Bool)
    (error : Option DeviceError) : CallState × List CallEffect :=
  if objId ∈ st.pending then
    if hasResult then resolveStep st
    else if isRetryableDeviceError error then retryStep st
    else rejectStep st (.deviceError error)
  else (st, [])

/-- Nesting depth of the `cause` chain (used to drive induction). -/
def JsError.depth : JsError → Nat
  | .mk _ _ _ none => 0
  | .mk _ _ _ (some c) => c.depth + 1

/-- An environment where `util.getSystemErrorName` always throws. -/
def gNone : Int → Option Str := fun _ => none

/-- `{code: 'ECONNRESET'}` as reported to a socket send callback. -/
def econnresetSendError : JsError :=
  .mk (some (.strv (str "ECONNRESET"))) none (some (str "ECONNRESET simulated failure")) none

/-- `{code: 'EACCES'}`, a non-transient error. -/
def eaccesError : JsError :=
  .mk (some (.strv (str "EACCES"))) none (some (str "permission denied")) none

/-- The error the `Network` socket accessor throws while no socket exists:
`ENOTCONN` with the outage message. -/
def enotconnAccessError : JsError :=
  .mk (some (.strv (str "ENOTCONN"))) none
    (some (str "Network communication is unavailable, device might be destroyed")) none

/-- `{code: 'eintr'}`: a lower-case spelling of a transient code. -/
def eintrLowerError : JsError :=
  .mk (some (.strv (str "eintr"))) none (some (str "interrupted system call")) none

/-- `{code: 'ENETDOWN'}` as reported to the broadcast send callback. -/
def enetdownError : JsError :=
  .mk (some (.strv (str "ENETDOWN"))) none (some (str "network is down")) none

/-- `{code: 'EHOSTUNREACH'}` raised by the first scripted connect attempt. -/
def ehostunreachError : JsError :=
  .mk (some (.strv (str "EHOSTUNREACH"))) none
    (some (str "simulated transient connect error")) none

/-- A code-less, non-transient failure for the second connect attempt. -/
def connectNonTransientError : JsError :=
  .mk none none (some (str "non transient failure")) none

/-- `{code: 'connection-failure'}`. -/
def connectionFailureError : JsError :=
  .mk (some (.strv (str "connection-failure"))) none none none

/-- `{message: 'outer', cause: {message: 'NETWORK COMMUNICATION IS
UNAVAILABLE while reconnecting'}}`: the outage message only on the nested
cause and in upper case. -/
def c5NestedError : JsError :=
  .mk none none (some (str "outer"))
    (some (.mk none none
      (some (str "NETWORK COMMUNICATION IS UNAVAILABLE while reconnecting")) none))

/-- `{message: 'network communication is unavailable while polling'}`: the
outage message in lower case on the outer error. -/
def c5LowerMessageError : JsError :=
  .mk none none (some (str "network communication is unavailable while polling")) none

/-- The service `{id: 'vacuum-1'}`. -/
def vacuumService : ServiceVal := ⟨str "vacuum-1"⟩

/-- First `send` pass of a fresh call whose socket send callback reports
`ECONNRESET`. -/
def callSendErrorRun1 : CallState × List CallEffect :=
  sendAttempt (mkCallState 0 none) .ok (.cbErr econnresetSendError)

/-- The retry attempt that follows (handshake ok, datagram delivered). -/
def callSendErrorRun2 : CallState × List CallEffect :=
  sendAttempt callSendErrorRun1.1 .ok .delivered

/-- First `send` pass of a fresh call whose socket send callback reports
the non-transient `EACCES`. -/
def callSendRejectRun : CallState × List CallEffect :=
  sendAttempt (mkCallState 0 none) .ok (.cbErr eaccesError)

/-- Is this effect a `this.parent.resetSocket(reason)` invocation with the
given reason? -/
def isResetSocketCallWith (reason : Str) : CallEffect → Bool
  | .netCall n r => n == str "resetSocket" && r == reason
  | _ => false

/-- Is this effect a `this.parent.requestRecoveryDiscovery(...)`
invocation? -/
def isRequestRecoveryDiscoveryCall : CallEffect → Bool
  | .netCall n _ => n == str "requestRecoveryDiscovery"
  | _ => false

/-- Does this effect settle the caller-visible promise? -/
def isSettleEffect : CallEffect → Bool
  | .settle _ => true
  | _ => false

/-- Is this effect a scheduled `send` retry? -/
def isScheduleSendEffect : CallEffect → Bool
  | .scheduleSend => true
  | _ => false

/-- Is this search effect a `resetSocket` invocation? -/
def isResetSearchEffect : SearchEffect → Bool
  | .resetSocketCall _ => true
  | _ => false

/-- Engine state with one outstanding request id 1 and budget left, as it
stands while a reply to id 1 is awaited. -/
def c6WitnessState : CallState := ⟨1, some 1, [1], 5, 0, false, true⟩

/-- The device error `{code: -9999, message: 'invalid stamp'}`. -/
def invalidStampError : Option DeviceError :=
  some ⟨some (.num (-9999)), some (str "invalid stamp")⟩

@[simp] theorem JsError.code_mk (c e : Option JsVal) (m : Option Str) (k : Option JsError) :
    (JsError.mk c e m k).code = c := rfl

@[simp] theorem JsError.errno_mk (c e : Option JsVal) (m : Option Str) (k : Option JsError) :
    (JsError.mk c e m k).errno = e := rfl

@[simp] theorem JsError.message_mk (c e : Option JsVal) (m : Option Str) (k : Option JsError) :
    (JsError.mk c e m k).message = m := rfl

@[simp] theorem JsError.cause_mk (c e : Option JsVal) (m : Option Str) (k : Option JsError) :
    (JsError.mk c e m k).cause = k := rfl

theorem asciiUpperChar_idem (n : Nat) :
    asciiUpperChar (asciiUpperChar n) = asciiUpperChar n := by
  simp only [asciiUpperChar]
  split <;> (try split) <;> omega

theorem asciiLowerChar_asciiUpperChar (n : Nat) :
    asciiLowerChar (asciiUpperChar n) = asciiLowerChar n := by
  simp only [asciiUpperChar, asciiLowerChar]
  split <;> (try split) <;> (try split) <;> omega

theorem upperStr_idem (s : Str) : upperStr (upperStr s) = upperStr s := by
  unfold upperStr
  rw [List.map_map]
  exact List.map_congr_left fun a _ => asciiUpperChar_idem a

theorem lowerStr_upperStr (s : Str) : lowerStr (upperStr s) = lowerStr s := by
  unfold upperStr lowerStr
  rw [List.map_map]
  exact List.map_congr_left fun a _ => asciiLowerChar_asciiUpperChar a

theorem canonicalizeErrorCode_idem (c : Str) :
    canonicalizeErrorCode (canonicalizeErrorCode c) = canonicalizeErrorCode c := by
  unfold canonicalizeErrorCode
  by_cases h1 : c ∈ TRANSIENT_NETWORK_ERROR_CODES
  · simp [h1]
  · by_cases h2 : upperStr c ∈ TRANSIENT_NETWORK_ERROR_CODES
    · simp [h1, h2]
    · by_cases h3 : lowerStr c ∈ TRANSIENT_NETWORK_ERROR_CODES
      · simp [h1, h2, h3]
      · simp [h1, h2, h3, upperStr_idem, lowerStr_upperStr]

theorem normalizeNetworkError_noCause (g : Int → Option Str)
    (hg : ∀ n r, g n = some r → canonicalizeErrorCode r = r)
    (code errno : Option JsVal) (msg : Option Str) :
    (∀ s, (normalizeNetworkError g (.mk code errno msg none)).code = some (.strv s) →
        canonicalizeErrorCode s = s) ∧
      normalizeNetworkError g (normalizeNetworkError g (.mk code errno msg none)) =
        normalizeNetworkError g (.mk code errno msg none) := by
  match code with
  | some (.strv c) =>
    constructor
    · intro s h
      simp only [normalizeNetworkError, JsError.code_mk, Option.some.injEq, JsVal.strv.injEq] at h
      subst h
      exact canonicalizeErrorCode_idem c
    · simp only [normalizeNetworkError, canonicalizeErrorCode_idem]
  | none | some (.num _) =>
    match errno with
    | some (.strv s0) =>
      constructor
      · intro s h
        simp only [normalizeNetworkError, JsError.code_mk, Option.some.injEq,
          JsVal.strv.injEq] at h
        subst h
        exact canonicalizeErrorCode_idem s0
      · simp only [normalizeNetworkError, canonicalizeErrorCode_idem]
    | some (.num k) =>
      cases hk : g k with
      | some name =>
        constructor
        · intro s h
          simp only [normalizeNetworkError, hk, JsError.code_mk, Option.some.injEq,
            JsVal.strv.injEq] at h
          subst h
          exact hg k _ hk
        · simp only [normalizeNetworkError, hk, hg k name hk]
      | none =>
        constructor
        · intro s h
          simp [normalizeNetworkError, hk] at h
        · simp only [normalizeNetworkError, hk]
    | none =>
      constructor
      · intro s h
        simp [normalizeNetworkError] at h
      · simp only [normalizeNetworkError]

theorem normalizeNetworkError_props (g : Int → Option Str)
    (hg : ∀ n r, g n = some r → canonicalizeErrorCode r = r) :
    ∀ (n : Nat) (e : JsError), e.depth ≤ n →
      (∀ s, (normalizeNetworkError g e).code = some (.strv s) →
          canonicalizeErrorCode s = s) ∧
        normalizeNetworkError g (normalizeNetworkError g e) = normalizeNetworkError g e := by
  intro n
  induction n with
  | zero =>
    intro e hd
    obtain ⟨code, errno, msg, cause⟩ := e
    cases cause with
    | none => exact normalizeNetworkError_noCause g hg code errno msg
    | some ec => simp [JsError.depth] at hd
  | succ n ih =>
    intro e hd
    obtain ⟨code, errno, msg, cause⟩ := e
    cases cause with
    | none => exact normalizeNetworkError_noCause g hg code errno msg
    | some ec =>
      have hdec : ec.depth ≤ n := by
        simp [JsError.depth] at hd
        omega
      obtain ⟨auxec, idemec⟩ := ih ec hdec
      match code with
      | some (.strv c) =>
        constructor
        · intro s h
          simp only [normalizeNetworkError, JsError.code_mk, Option.some.injEq,
            JsVal.strv.injEq] at h
          subst h
          exact canonicalizeErrorCode_idem c
        · simp only [normalizeNetworkError, canonicalizeErrorCode_idem]
      | none | some (.num _) =>
        match errno with
        | some (.strv s0) =>
          constructor
          · intro s h
            simp only [normalizeNetworkError, JsError.code_mk, Option.some.injEq,
              JsVal.strv.injEq] at h
            subst h
            exact canonicalizeErrorCode_idem s0
          · simp only [normalizeNetworkError, canonicalizeErrorCode_idem]
        | some (.num k) =>
          cases hk : g k with
          | some name =>
            constructor
            · intro s h
              simp only [normalizeNetworkError, hk, JsError.code_mk, Option.some.injEq,
                JsVal.strv.injEq] at h
              subst h
              exact hg k _ hk
            · simp only [normalizeNetworkError, hk, hg k name hk]
          | none =>
            cases hnc : (normalizeNetworkError g ec).code with
            | some v =>
              cases v with
              | strv s1 =>
                constructor
                · intro s h
                  simp only [normalizeNetworkError, hk, hnc, JsError.code_mk,
                    Option.some.injEq, JsVal.strv.injEq] at h
                  subst h
                  exact auxec s1 hnc
                · simp only [normalizeNetworkError, hk, hnc, auxec s1 hnc]
              | num m =>
                constructor
                · intro s h
                  simp [normalizeNetworkError, hk, hnc] at h
                · simp only [normalizeNetworkError, hk, hnc, idemec]
            | none =>
              constructor
              · intro s h
                simp [normalizeNetworkError, hk, hnc] at h
              · simp only [normalizeNetworkError, hk, hnc, idemec]
        | none =>
          cases hnc : (normalizeNetworkError g ec).code with
          | some v =>
            cases v with
            | strv s1 =>
              constructor
              · intro s h
                simp only [normalizeNetworkError, JsError.code_mk, hnc, Option.some.injEq,
                  JsVal.strv.injEq] at h
                subst h
                exact auxec s1 hnc
              · simp only [normalizeNetworkError, hnc, auxec s1 hnc]
            | num m =>
              constructor
              · intro s h
                simp [normalizeNetworkError, hnc] at h
              · simp only [normalizeNetworkError, hnc, idemec]
          | none =>
            constructor
            · intro s h
              simp [normalizeNetworkError, hnc] at h
            · simp only [normalizeNetworkError, hnc, idemec]

theorem canon_lower_members :
    ∀ c ∈ TRANSIENT_NETWORK_ERROR_CODES,
      canonicalizeErrorCode (lowerStr c) = c ∧ (lowerStr c = c ↔ c = str "timeout") := by
  decide

theorem retryStep_eq (st : CallState) (hres : st.resolved = false) (hb : 0 < st.retriesLeft) :
    (retryStep st).2 =
      ((if st.responseTimerActive then [CallEffect.clearResponseTimer] else []) ++
       (match st.requestId with
        | some id => [CallEffect.promiseDelete id]
        | none => [])) ++
      [CallEffect.markHandshakeRequired, CallEffect.scheduleSend] := by
  cases hti : st.responseTimerActive <;> cases hreq : st.requestId <;>
    simp [retryStep, hres, hti, hreq, hb]

theorem assignRequestId_bounds (lastId : Nat) (hl : lastId ≤ 9999) (b : Bool) :
    1 ≤ assignRequestId lastId b ∧ assignRequestId lastId b ≤ 9999 := by
  cases b <;> simp [assignRequestId] <;> split <;> omega

theorem foldl_assignRequestId_bounds :
    ∀ (steps : List Bool) (l : Nat), 1 ≤ l → l ≤ 9999 →
      1 ≤ steps.foldl assignRequestId l ∧ steps.foldl assignRequestId l ≤ 9999 := by
  intro steps
  induction steps with
  | nil => intro l h1 h2; exact ⟨h1, h2⟩
  | cons b rest ih =>
    intro l h1 h2
    have hb := assignRequestId_bounds l h2 b
    exact ih (assignRequestId l b) hb.1 hb.2

/-- C1: evaluation of the call engine at the failing input. When the socket
send callback reports the transient `ECONNRESET`, the engine invokes
`this.parent.resetSocket` with reason `socket send error: ECONNRESET` and
retries with id `lastId + 100`, but it never invokes
`requestRecoveryDiscovery` (the recovery helper calls only `resetSocket`),
contrary to the claim; a non-transient send error does reject the call
without scheduling a retry. -/
theorem c1_send_error_recovery_omits_requestRecoveryDiscovery :
    callSendErrorRun1.2.any
        (isResetSocketCallWith (str "socket send error: ECONNRESET")) = true ∧
    callSendErrorRun1.2.any isRequestRecoveryDiscoveryCall = false ∧
    (callSendErrorRun1.2 ++ callSendErrorRun2.2).any isRequestRecoveryDiscoveryCall = false ∧
    callSendErrorRun1.2.any isScheduleSendEffect = true ∧
    callSendErrorRun1.1.lastId = 1 ∧
    callSendErrorRun2.1.requestId = some (callSendErrorRun1.1.lastId + 100) ∧
    callSendRejectRun.2.any isSettleEffect = true ∧
    callSendRejectRun.2.any isScheduleSendEffect = false := by
  decide

/-- C2: evaluation of `Network.search`'s broadcast at the failing inputs.
A transient error thrown by the socket accessor produces only a debug skip
(no `resetSocket` with reason `discovery socket unavailable: ENOTCONN`);
a non-transient accessor error propagates, so `search()` throws; a
lower-case `eintr` callback error is not canonicalized and triggers no
reset; an upper-case `ENETDOWN` callback error does reset. -/
theorem c2_search_skips_reset_and_throws :
    broadcastEffects (Except.error enotconnAccessError) none = [SearchEffect.debugSkip] ∧
    (broadcastEffects (Except.error enotconnAccessError) none).any isResetSearchEffect = false ∧
    sendBroadcastThrows (Except.error eaccesError) none = true ∧
    broadcastEffects (Except.ok ()) (some eintrLowerError) = [SearchEffect.debugFail] ∧
    broadcastEffects (Except.ok ()) (some enetdownError) =
      [SearchEffect.resetSocketCall (str "discovery broadcast error: ENETDOWN")] := by
  decide

/-- C3: with `connectionRetries = 1` and a first attempt failing with the
transient `EHOSTUNREACH`, exactly two attempts are made and the recorded
failure sequence is exactly one `resetSocket` followed by one
`requestRecoveryDiscovery`, both with reason
`connect retry after transient error: EHOSTUNREACH`; the final rejection is
the second attempt's non-transient error, and the connect-level classifier
also treats `connection-failure` as transient. -/
theorem c3_connect_retry_records_recovery_pair :
    (findDeviceWithRetry [.fail ehostunreachError, .fail connectNonTransientError] 1).1 = 2 ∧
    (findDeviceWithRetry [.fail ehostunreachError, .fail connectNonTransientError] 1).2.1 =
      [.call (str "resetSocket")
          (str "connect retry after transient error: EHOSTUNREACH"),
       .call (str "requestRecoveryDiscovery")
          (str "connect retry after transient error: EHOSTUNREACH")] ∧
    ((findDeviceWithRetry [.fail ehostunreachError, .fail connectNonTransientError] 1).2.2.map
        JsError.message) = some (some (str "non transient failure")) ∧
    isTransientConnectionError connectionFailureError = true := by
  decide

/-- C4: for every error whose code is the lower-case spelling of a
well-known transient code, canonicalization stores the member itself — the
upper-case form for every member except the sentinel `timeout`, which is
the only member whose lower-case spelling is kept unchanged — and
`isTransient` then returns true; in general, for a code-only error,
`isTransient` returns true exactly when the canonical code lies in the
fixed transient set. -/
theorem c4_lowercase_code_canonicalizes_and_is_transient (g : Int → Option Str) (c : Str)
    (hc : c ∈ TRANSIENT_NETWORK_ERROR_CODES) (m : Option Str) :
    canonicalizeErrorCode (lowerStr c) = c ∧
    (lowerStr c = c ↔ c = str "timeout") ∧
    (normalizeNetworkError g (.mk (some (.strv (lowerStr c))) none m none)).code =
      some (.strv c) ∧
    isTransientNetworkError g (.mk (some (.strv (lowerStr c))) none m none) = true ∧
    ∀ c', isTransientNetworkError g (.mk (some (.strv c')) none none none) =
      decide (canonicalizeErrorCode c' ∈ TRANSIENT_NETWORK_ERROR_CODES) := by
  obtain ⟨h1, h2⟩ := canon_lower_members c hc
  refine ⟨h1, h2, ?_, ?_, ?_⟩
  · simp only [normalizeNetworkError, JsError.code_mk, h1]
  · simp only [isTransientNetworkError, normalizeNetworkError, transientCheck,
      JsError.code_mk, JsError.message_mk, h1]
    simp [hc]
  · intro c'
    simp only [isTransientNetworkError, normalizeNetworkError, transientCheck,
      JsError.code_mk, JsError.message_mk]
    by_cases h : canonicalizeErrorCode c' ∈ TRANSIENT_NETWORK_ERROR_CODES
    · simp [h]
    · simp [h]

/-- C4 witness: `{code: 'eintr'}` canonicalizes to `EINTR` and is
classified as transient. -/
theorem c4_witness_eintr :
    canonicalizeErrorCode (lowerStr (str "EINTR")) = str "EINTR" ∧
      isTransientNetworkError gNone
        (.mk (some (.strv (lowerStr (str "EINTR")))) none none none) = true :=
  ⟨(c4_lowercase_code_canonicalizes_and_is_transient gNone (str "EINTR") (by decide) none).1,
   (c4_lowercase_code_canonicalizes_and_is_transient gNone (str "EINTR")
      (by decide) none).2.2.2.1⟩

/-- C5: evaluation of the classifier at the failing inputs. An error whose
outage message appears only on the nested `cause` (and in upper case) is
classified as not transient, and so is an outer message in lower case: the
substring test is case-sensitive and reads only the outer `message`,
contrary to the claim (and to the repository's own tests). -/
theorem c5_message_test_case_sensitive_outer_only :
    isTransientNetworkError gNone c5NestedError = false ∧
    isTransientNetworkErrorPlain c5LowerMessageError = false ∧
    isTransientNetworkError gNone c5LowerMessageError = false := by
  decide

/-- C6: an inbound device-error reply for a pending id restarts the call
exactly when the error is retryable — `String(code)` in
`{-9999, -30001}` or a case-insensitive message containing `invalid stamp`
or `invalid_stmp` — with `markHandshakeRequired` recorded before the
scheduled resend and no caller-visible settlement; a non-retryable device
error settles (rejects) the call. -/
theorem c6_retryable_device_error_restarts_call (st : CallState) (objId : Nat)
    (e : Option DeviceError) (hpend : objId ∈ st.pending) (hres : st.resolved = false)
    (hbudget : 0 < st.retriesLeft) :
    (isRetryableDeviceError e = true →
      (∃ pre, (dispatchReply st objId false e).2 =
          pre ++ [CallEffect.markHandshakeRequired, CallEffect.scheduleSend]) ∧
        (dispatchReply st objId false e).2.any isSettleEffect = false) ∧
    (isRetryableDeviceError e = false →
      (dispatchReply st objId false e).2.any isSettleEffect = true) ∧
    (∀ de : DeviceError, isRetryableDeviceError (some de) = true ↔
      (jsStringOf de.code ∈ RETRYABLE_DEVICE_ERROR_CODES ∨
        ∃ m, de.message = some m ∧
          (listContainsSub (str "invalid stamp") (lowerStr m) = true ∨
           listContainsSub (str "invalid_stmp") (lowerStr m) = true))) := by
  refine ⟨?_, ?_, ?_⟩
  · intro hr
    have hd : dispatchReply st objId false e = retryStep st := by
      simp [dispatchReply, hpend, hr]
    rw [hd, retryStep_eq st hres hbudget]
    constructor
    · exact ⟨_, rfl⟩
    · cases hti : st.responseTimerActive <;> cases hreq : st.requestId <;>
        simp [isSettleEffect, hti, hreq]
  · intro hr
    have hd : dispatchReply st objId false e = rejectStep st (.deviceError e) := by
      simp [dispatchReply, hpend, hr]
    rw [hd]
    cases hti : st.responseTimerActive <;> cases hreq : st.requestId <;>
      simp [rejectStep, isSettleEffect, hti, hreq]
  · intro de
    unfold isRetryableDeviceError
    by_cases hcode : jsStringOf de.code ∈ RETRYABLE_DEVICE_ERROR_CODES
    · simp [hcode]
    · cases hm : de.message with
      | none => simp [hcode, hm]
      | some m => simp [hcode, hm, RETRYABLE_DEVICE_ERROR_MESSAGES]

/-- C6 witness: the reply `{id: 1, error: {code: -9999, message:
'invalid stamp'}}` for outstanding id 1 restarts the call with
`markHandshakeRequired` before the resend and no settlement. -/
theorem c6_witness_invalid_stamp :
    (∃ pre, (dispatchReply c6WitnessState 1 false invalidStampError).2 =
        pre ++ [CallEffect.markHandshakeRequired, CallEffect.scheduleSend]) ∧
      (dispatchReply c6WitnessState 1 false invalidStampError).2.any isSettleEffect = false :=
  (c6_retryable_device_error_restarts_call c6WitnessState 1 invalidStampError
    (by decide) (by decide) (by decide)).1 (by decide)

/-- C7: starting from the constructor's `lastId = 0`, after any nonempty
sequence of id assignments `lastId` lies in `[1, 9999]`; an assignment from
any `lastId ≤ 9999` lands in `[1, 9999]`; a first attempt is assigned
`lastId + 1` and a retry `lastId + 100`, wrapping to 1 at 10000 or more;
and a successful `send` pass updates both `lastId` and `request.id` to the
assigned id. -/
theorem c7_lastId_stays_in_range (steps : List Bool) (hne : steps ≠ []) (lastId : Nat)
    (hl : lastId ≤ 9999) (b : Bool) :
    (1 ≤ steps.foldl assignRequestId 0 ∧ steps.foldl assignRequestId 0 ≤ 9999) ∧
    (1 ≤ assignRequestId lastId b ∧ assignRequestId lastId b ≤ 9999) ∧
    (assignRequestId lastId false = if lastId + 1 ≥ 10000 then 1 else lastId + 1) ∧
    (assignRequestId lastId true = if lastId + 100 ≥ 10000 then 1 else lastId + 100) ∧
    (∀ st : CallState, st.resolved = false → st.requestId = none →
      (sendAttempt st .ok .delivered).1.lastId = assignRequestId st.lastId false ∧
      (sendAttempt st .ok .delivered).1.requestId = some (assignRequestId st.lastId false)) ∧
    (∀ st : CallState, st.resolved = false → ∀ rid, st.requestId = some rid →
      (sendAttempt st .ok .delivered).1.lastId = assignRequestId st.lastId true ∧
      (sendAttempt st .ok .delivered).1.requestId = some (assignRequestId st.lastId true)) := by
  refine ⟨?_, assignRequestId_bounds lastId hl b, rfl, rfl, ?_, ?_⟩
  · match steps, hne with
    | b0 :: rest, _ =>
      have hb := assignRequestId_bounds 0 (by omega) b0
      simpa using foldl_assignRequestId_bounds rest (assignRequestId 0 b0) hb.1 hb.2
  · intro st h1 h2
    simp [sendAttempt, h1, h2]
  · intro st h1 rid h2
    simp [sendAttempt, h1, h2]

/-- C7 witness: after the sequence first-attempt-then-retry from 0 the
last id is in range, and an assignment from `lastId = 9999` wraps into
range. -/
theorem c7_witness_two_steps :
    (1 ≤ [false, true].foldl assignRequestId 0 ∧
      [false, true].foldl assignRequestId 0 ≤ 9999) ∧
    (1 ≤ assignRequestId 9999 true ∧ assignRequestId 9999 true ≤ 9999) :=
  ⟨(c7_lastId_stays_in_range [false, true] (by decide) 9999 (by decide) true).1,
   (c7_lastId_stays_in_range [false, true] (by decide) 9999 (by decide) true).2.1⟩

/-- C8: evaluation of the discovery registry at the failing input.
`addService({id: 'vacuum-1'})` followed by `removeService` deletes the
service but leaves its entry in the timestamps map, contrary to the claim
(and to the repository's own tests): the inherited `removeService` touches
only `_services`. -/
theorem c8_removeService_leaves_timestamp :
    (removeService (timedAddService emptyTimedDiscovery vacuumService 5).1
        vacuumService).1.services = [] ∧
    (removeService (timedAddService emptyTimedDiscovery vacuumService 5).1
        vacuumService).1.timestamps = [(str "vacuum-1", 5)] ∧
    (removeService (timedAddService emptyTimedDiscovery vacuumService 5).1
        vacuumService).1.timestamps ≠ [] := by
  decide

/-- C9: for every error, normalization (and with it the stored code and the
transient classification) is idempotent, provided the OS error-number table
returns codes that are already canonical — which holds for the Node table,
whose names are upper-case ASCII. -/
theorem c9_canonicalization_idempotent (g : Int → Option Str)
    (hg : ∀ n r, g n = some r → canonicalizeErrorCode r = r) (e : JsError) :
    normalizeNetworkError g (normalizeNetworkError g e) = normalizeNetworkError g e ∧
    isTransientNetworkError g (normalizeNetworkError g e) = isTransientNetworkError g e := by
  have h := normalizeNetworkError_props g hg e.depth e le_rfl
  refine ⟨h.2, ?_⟩
  unfold isTransientNetworkError
  rw [h.2]

/-- C9 witness: idempotence at `{code: 'eintr'}` with a throwing
error-number table. -/
theorem c9_witness_eintr :
    normalizeNetworkError gNone (normalizeNetworkError gNone eintrLowerError) =
      normalizeNetworkError gNone eintrLowerError :=
  (c9_canonicalization_idempotent gNone (fun _ _ h => Option.noConfusion h)
    eintrLowerError).1

/-- C10: whenever `options.retries` is falsy (no options, absent, or 0) the
retry budget is the default 5; the initial budget is never 0, so zero
retries cannot be requested through the options parameter; and the call
state is built with exactly this budget. -/
theorem c10_zero_retries_impossible (retriesOpt : Option (Option Int))
    (hfalsy : retriesOpt = none ∨ retriesOpt = some none ∨ retriesOpt = some (some 0)) :
    initialRetries retriesOpt = 5 ∧
    (∀ opts, initialRetries opts ≠ 0) ∧
    (∀ lastId0 opts, (mkCallState lastId0 opts).retriesLeft = initialRetries opts) := by
  refine ⟨?_, ?_, fun _ _ => rfl⟩
  · rcases hfalsy with h | h | h <;> subst h <;> rfl
  · intro opts
    match opts with
    | none => decide
    | some none => decide
    | some (some v) =>
      by_cases hv : v = 0
      · simp [initialRetries, hv]
      · simp [initialRetries, hv]

/-- C10 witness: `options.retries = 0` yields the default budget 5. -/
theorem c10_witness_zero :
    initialRetries (some (some 0)) = 5 :=
  (c10_zero_retries_impossible (some (some 0)) (Or.inr (Or.inr rfl))).1
